import Mathlib

/-!
Verification development for the `dataone_examples` repository
(`python_examples/upload_package.ipynb`).

The notebook assembles a DataONE data package: it builds a minimal EML
descriptor, computes per-object system metadata (size, MD5 checksum,
public-read access policy, timestamps), uploads the descriptor, each data
file (in sorted path order, with flattened file names), and finally a
resource map aggregating all uploaded identifiers.

The development embeds the notebook's own functions
(`flatten_filepath`, `generate_system_metadata`,
`generate_public_access_policy`, `create_minimum_eml`) and its cell-level
orchestration (cells 4, 8, 14 and 18) as pure Lean functions.  Bytes are
`List Nat` values; the current time sampled by `datetime.datetime.now()`
is an explicit parameter; calls to `client.create` are recorded in a
trace.  The MD5 digest performed through `hashlib.md5` is implemented in
full (RFC 1321) so that checksum statements are about the real digest.
-/

set_option maxHeartbeats 1000000
set_option maxRecDepth 20000

namespace D1

/-! ## Bytes and UTF-8 encoding -/

/-- Concatenation of the images of `f`, used in place of Python-level
iteration over characters/bytes. -/
def concatMap (f : α → List β) : List α → List β
  | [] => []
  | x :: xs => f x ++ concatMap f xs

/-- UTF-8 encoding of a single character (code point), as produced by
Python's `str.encode("utf-8")` for each character. -/
def utf8Char (c : Char) : List Nat :=
  let n := c.toNat
  if n < 0x80 then [n]
  else if n < 0x800 then [0xC0 + n / 64, 0x80 + n % 64]
  else if n < 0x10000 then [0xE0 + n / 4096, 0x80 + n / 64 % 64, 0x80 + n % 64]
  else [0xF0 + n / 262144, 0x80 + n / 4096 % 64, 0x80 + n / 64 % 64, 0x80 + n % 64]

/-- The byte sequence of `s.encode("utf-8")` in Python. -/
def utf8Encode (s : String) : List Nat :=
  concatMap utf8Char s.data

/-! ## MD5 (RFC 1321), the digest used through `hashlib.md5` -/

/-- Per-round additive constants `K[i] = floor(2^32 * abs(sin(i+1)))`. -/
def md5K : List Nat :=
  [0xd76aa478, 0xe8c7b756, 0x242070db, 0xc1bdceee,
   0xf57c0faf, 0x4787c62a, 0xa8304613, 0xfd469501,
   0x698098d8, 0x8b44f7af, 0xffff5bb1, 0x895cd7be,
   0x6b901122, 0xfd987193, 0xa679438e, 0x49b40821,
   0xf61e2562, 0xc040b340, 0x265e5a51, 0xe9b6c7aa,
   0xd62f105d, 0x02441453, 0xd8a1e681, 0xe7d3fbc8,
   0x21e1cde6, 0xc33707d6, 0xf4d50d87, 0x455a14ed,
   0xa9e3e905, 0xfcefa3f8, 0x676f02d9, 0x8d2a4c8a,
   0xfffa3942, 0x8771f681, 0x6d9d6122, 0xfde5380c,
   0xa4beea44, 0x4bdecfa9, 0xf6bb4b60, 0xbebfbc70,
   0x289b7ec6, 0xeaa127fa, 0xd4ef3085, 0x04881d05,
   0xd9d4d039, 0xe6db99e5, 0x1fa27cf8, 0xc4ac5665,
   0xf4292244, 0x432aff97, 0xab9423a7, 0xfc93a039,
   0x655b59c3, 0x8f0ccc92, 0xffeff47d, 0x85845dd1,
   0x6fa87e4f, 0xfe2ce6e0, 0xa3014314, 0x4e0811a1,
   0xf7537e82, 0xbd3af235, 0x2ad7d2bb, 0xeb86d391]

/-- Per-round left-rotation amounts. -/
def md5S : List Nat :=
  [7, 12, 17, 22, 7, 12, 17, 22, 7, 12, 17, 22, 7, 12, 17, 22,
   5, 9, 14, 20, 5, 9, 14, 20, 5, 9, 14, 20, 5, 9, 14, 20,
   4, 11, 16, 23, 4, 11, 16, 23, 4, 11, 16, 23, 4, 11, 16, 23,
   6, 10, 15, 21, 6, 10, 15, 21, 6, 10, 15, 21, 6, 10, 15, 21]

/-- Left rotation of a 32-bit word (input assumed below `2^32`). -/
def rotl32 (x n : Nat) : Nat :=
  ((x <<< n) ||| (x >>> (32 - n))) % 4294967296

/-- Round function and message index for round `i`: the four MD5 mixing
functions F, G, H, I together with their message-word schedules. -/
def md5FG (b c d i : Nat) : Nat × Nat :=
  if i < 16 then ((b &&& c) ||| ((b ^^^ 0xffffffff) &&& d), i)
  else if i < 32 then ((d &&& b) ||| ((d ^^^ 0xffffffff) &&& c), (5 * i + 1) % 16)
  else if i < 48 then (b ^^^ c ^^^ d, (3 * i + 5) % 16)
  else (c ^^^ (b ||| (d ^^^ 0xffffffff)), (7 * i) % 16)

/-- One MD5 round step on the state `(a, b, c, d)`. -/
def md5Round (M : Nat → Nat) (st : Nat × Nat × Nat × Nat) (i : Nat) :
    Nat × Nat × Nat × Nat :=
  let a := st.1
  let b := st.2.1
  let c := st.2.2.1
  let d := st.2.2.2
  let fg := md5FG b c d i
  let f := (fg.1 + a + md5K.getD i 0 + M fg.2) % 4294967296
  (d, (b + rotl32 f (md5S.getD i 0)) % 4294967296, b, c)

/-- Processing of one padded 64-byte chunk: 64 rounds followed by the
feed-forward addition of the incoming state. -/
def md5Chunk (st : Nat × Nat × Nat × Nat) (chunk : List Nat) :
    Nat × Nat × Nat × Nat :=
  let M : Nat → Nat := fun j =>
    chunk.getD (4 * j) 0 + chunk.getD (4 * j + 1) 0 * 256 +
      chunk.getD (4 * j + 2) 0 * 65536 + chunk.getD (4 * j + 3) 0 * 16777216
  let r := (List.range 64).foldl (md5Round M) st
  ((st.1 + r.1) % 4294967296, (st.2.1 + r.2.1) % 4294967296,
   (st.2.2.1 + r.2.2.1) % 4294967296, (st.2.2.2 + r.2.2.2) % 4294967296)

/-- Iteration over the 64-byte chunks of the padded message.  The first
argument is structural-recursion fuel; one byte of the message is more
than enough fuel per chunk, so callers pass the message length plus one. -/
def md5Blocks : Nat → (Nat × Nat × Nat × Nat) → List Nat → Nat × Nat × Nat × Nat
  | _, st, [] => st
  | 0, st, _ => st
  | fuel + 1, st, msg => md5Blocks fuel (md5Chunk st (msg.take 64)) (msg.drop 64)

/-- MD5 padding: a `0x80` byte, zeros up to 56 mod 64, then the bit length
as eight little-endian bytes. -/
def md5Pad (msg : List Nat) : List Nat :=
  let bitLen := (msg.length * 8) % 18446744073709551616
  let padLen := (119 - msg.length % 64) % 64
  msg ++ [0x80] ++ List.replicate padLen 0 ++
    (List.range 8).map (fun i => (bitLen >>> (8 * i)) % 256)

/-- Lowercase hexadecimal digit. -/
def hexDigit (n : Nat) : Char :=
  if n < 10 then Char.ofNat (48 + n) else Char.ofNat (87 + n)

/-- Two lowercase hex digits of one byte. -/
def byteHex (b : Nat) : List Char :=
  [hexDigit (b / 16 % 16), hexDigit (b % 16)]

/-- Eight hex digits of a 32-bit word, bytes in little-endian order, as in
the MD5 output convention. -/
def wordHexLE (w : Nat) : List Char :=
  byteHex (w % 256) ++ byteHex (w / 256 % 256) ++
    byteHex (w / 65536 % 256) ++ byteHex (w / 16777216 % 256)

/-- The value of `hashlib.md5(msg).hexdigest()`: the 32-character
lowercase hex digest of the byte sequence `msg`. -/
def md5Hex (msg : List Nat) : String :=
  let padded := md5Pad msg
  let r := md5Blocks (padded.length + 1)
    (0x67452301, 0xefcdab89, 0x98badcfe, 0x10325476) padded
  String.mk (wordHexLE r.1 ++ wordHexLE r.2.1 ++ wordHexLE r.2.2.1 ++ wordHexLE r.2.2.2)

/-! ## `flatten_filepath` -/

/-- Replace directory separators with double underscores
(`str(path).replace(os.path.sep, '__')`; the notebook runs on a POSIX
system, where `os.path.sep` is the single character `/`, so the
replacement substitutes each `/` by `__`). -/
def flatten_filepath (path : String) : String :=
  String.mk (concatMap (fun c => if c = '/' then ['_', '_'] else [c]) path.data)

/-! ## System metadata (`generate_system_metadata`) -/

/-- Dynamic Python value passed as the `science_object` argument:
a byte string, a text string, or any other object. -/
inductive PyVal where
  | bytes (b : List Nat)
  | str (s : String)
  | other
deriving DecidableEq

/-- Exceptions surfaced by the embedded code: the notebook's own
`ValueError`, and the validation error raised by the external
`dataoneTypes` bindings when an invalid value is assigned to a
schema-typed field. -/
inductive PyError where
  | valueError (msg : String)
  | simpleFacetValueError (field : String)
deriving DecidableEq

/-- Value of `d1_common.const.SUBJECT_PUBLIC` (shown as
`<subject>public</subject>` in the notebook's recorded output). -/
def SUBJECT_PUBLIC : String := "public"

/-- One access rule of the DataONE access policy: a list of subjects and
a list of permission strings, as in the `dataoneTypes.AccessRule`
binding. -/
structure AccessRule where
  subject : List String
  permission : List String
deriving DecidableEq

/-- Checksum element: hex digest value plus algorithm attribute. -/
structure Checksum where
  value : String
  algorithm : String
deriving DecidableEq

/-- The system metadata record built by `generate_system_metadata`.
Timestamps are instants of the sampled current time (modelled as `Nat`). -/
structure SystemMetadata where
  identifier : String
  formatId : String
  size : Nat
  rightsHolder : String
  fileName : Option String
  checksum : Checksum
  dateUploaded : Nat
  dateSysMetadataModified : Nat
  accessPolicy : List AccessRule
deriving DecidableEq

/-- Creates the access policy for the object.  Note that the permission is
set to `read`: one rule with the public subject and the read permission. -/
def generate_public_access_policy : List AccessRule :=
  [{ subject := [SUBJECT_PUBLIC], permission := ["read"] }]

/-- Modelled from the spec: the external `dataoneTypes` bindings validate
a value assigned to the `identifier` field against the DataONE
`Identifier` schema type, which requires a non-empty string; the spec
records that an empty identifier fails immediately, before any network
call. -/
def identifierValid (s : String) : Bool := s != ""

/-- The record assembled by the field-assignment block of
`generate_system_metadata` once the payload bytes are known: identifier,
format, size, rights holder, optional file name (set only when the
`filename` argument is truthy, i.e. neither `None` nor empty), MD5
checksum, both timestamps stamped with the one sampled instant, and the
fixed public-read access policy. -/
def mkSysMeta (pid format_id : String) (bytes : List Nat) (orcid : String)
    (filename : Option String) (now : Nat) : SystemMetadata :=
  { identifier := pid
    formatId := format_id
    size := bytes.length
    rightsHolder := orcid
    fileName := match filename with
      | some f => if f = "" then none else some f
      | none => none
    checksum := { value := md5Hex bytes, algorithm := "MD5" }
    dateUploaded := now
    dateSysMetadataModified := now
    accessPolicy := generate_public_access_policy }

/-- The coercion check at the top of `generate_system_metadata`: a byte
string passes through, a text string is encoded to UTF-8, anything else
raises `ValueError("Supplied science_object is not unicode")`. -/
def coerceBytes : PyVal → Except PyError (List Nat)
  | .bytes b => .ok b
  | .str s => .ok (utf8Encode s)
  | .other => .error (.valueError "Supplied science_object is not unicode")

/-- Generates a system metadata document (embedding of
`generate_system_metadata`).  The current time sampled once by
`datetime.datetime.now()` is the explicit `now` argument. -/
def generate_system_metadata (pid format_id : String) (science_object : PyVal)
    (orcid : String) (filename : Option String) (now : Nat) :
    Except PyError SystemMetadata :=
  match coerceBytes science_object with
  | .error e => .error e
  | .ok b =>
    if identifierValid pid then
      .ok (mkSysMeta pid format_id b orcid filename now)
    else
      .error (.simpleFacetValueError "identifier")

/-! ## `create_minimum_eml` -/

/-- Ugly method that creates a bare minimum EML record for a package
(embedding of `create_minimum_eml`: plain string concatenation of the
fixed template around the caller-supplied title). -/
def create_minimum_eml (title : String) : String :=
  let top := "<?xml version=\"1.0\" encoding=\"UTF-8\"?>"
  let ns := "<eml:eml xmlns:eml=\"eml://ecoinformatics.org/eml-2.1.1\" xmlns:stmml=\"http://www.xml-cml.org/schema/stmml-1.1\" xmlns:xsi=\"http://www.w3.org/2001/XMLSchema-instance\" packageId=\"test_pkg\" system=\"test_system\" xsi:schemaLocation=\"eml://ecoinformatics.org/eml-2.1.1 eml.xsd\">"
  let dataset := "<dataset>"
  let individualName := "<individualName><surName>Test user</surName></individualName>"
  let creator := "<creator>" ++ individualName ++ "</creator>"
  let contact := "<contact>" ++ individualName ++ "</contact>"
  let dataset_close := "</dataset>"
  let eml_close := "</eml:eml>"
  top ++ ns ++ dataset ++ ("<title>" ++ title ++ "</title>") ++ creator ++
    contact ++ dataset_close ++ eml_close

/-- Split a character list around the first occurrence of `pat`,
returning the part before and the part after the occurrence. -/
def splitFirst (pat : List Char) : List Char → Option (List Char × List Char)
  | [] => if pat.isEmpty then some ([], []) else none
  | c :: cs =>
    if pat.isPrefixOf (c :: cs) then some ([], (c :: cs).drop pat.length)
    else
      match splitFirst pat cs with
      | some (l, r) => some (c :: l, r)
      | none => none

/-- Modelled from the spec: reading the title element of the produced
document after an XML parse.  The notebook itself never parses the EML
back; for the fixed-shape document this is the text between the first
`<title>` open tag and the following `</title>` close tag (no entity
decoding). -/
def extractTitle (doc : String) : Option String :=
  match splitFirst "<title>".data doc.data with
  | some (_, rest) =>
    match splitFirst "</title>".data rest with
    | some (t, _) => some (String.mk t)
    | none => none
  | none => none

/-! ## The notebook flow (cells 4, 8, 14, 18) -/

/-- One local data file of cell 4: its path, declared format, and
content bytes. -/
structure FileEntry where
  path : String
  format : String
  content : List Nat
deriving DecidableEq

/-- Insertion of a file into a path-sorted list (kept stable, as
Python's `sorted`). -/
def insertSortedFE (x : FileEntry) : List FileEntry → List FileEntry
  | [] => [x]
  | y :: ys => if x.path ≤ y.path then x :: y :: ys else y :: insertSortedFE x ys

/-- The `sorted(...)` call of cell 4: the file list in ascending
lexicographic path order. -/
def sortFiles : List FileEntry → List FileEntry
  | [] => []
  | x :: xs => insertSortedFE x (sortFiles xs)

/-- Adjacent-pair check that a file list is in ascending lexicographic
path order. -/
def isSortedByPath : List FileEntry → Bool
  | a :: b :: rest => if a.path ≤ b.path then isSortedByPath (b :: rest) else false
  | _ => true

/-- One recorded `client.create(pid, payload, sysmeta)` network call. -/
structure CreateCall where
  pid : String
  payload : List Nat
  sysmeta : SystemMetadata
deriving DecidableEq

/-- Modelled from the spec: the resource map produced by the external
`createSimpleResourceMap(ore_pid, eml_pid, data_pids)` — a document under
its own identifier with a describes-relationship to the descriptor
identifier and an aggregates-relationship to each data identifier. -/
structure ResourceMap where
  identifier : String
  describesId : String
  aggregatedIds : List String
deriving DecidableEq

/-- Modelled from the spec: construction of the simple resource map from
the aggregation identifier, the descriptor identifier and the ordered
data identifiers. -/
def createSimpleResourceMap (ore_pid eml_pid : String)
    (data_pids : List String) : ResourceMap :=
  { identifier := ore_pid, describesId := eml_pid, aggregatedIds := data_pids }

/-- The object identifiers referenced by the resource map: the descriptor
through the describes relation, and each aggregated data object. -/
def ResourceMap.references (rm : ResourceMap) : List String :=
  rm.describesId :: rm.aggregatedIds

/-- Modelled from the spec: `ore.serialize(format="xml")`, the canonical
byte serialization of the resource map handed to `client.create`. -/
def ResourceMap.serialize (rm : ResourceMap) : List Nat :=
  utf8Encode (String.intercalate " "
    (rm.identifier :: rm.describesId :: rm.aggregatedIds))

/-- The data-upload loop of cell 14 over files paired with the fresh
UUID drawn for each of them: synthesize system metadata (format from the
file entry, file name flattened from the path), record the create call,
and collect the identifiers in upload order.  On a synthesis error the
loop stops with the calls made so far. -/
def uploadData (orcid : String) (now : Nat) :
    List (FileEntry × String) → List CreateCall × Except PyError (List String)
  | [] => ([], .ok [])
  | (f, pid) :: rest =>
    match generate_system_metadata pid f.format (.bytes f.content) orcid
      (some (flatten_filepath f.path)) now with
    | .error e => ([], .error e)
    | .ok sm =>
      let r := uploadData orcid now rest
      (⟨pid, f.content, sm⟩ :: r.1, r.2.map (pid :: ·))

/-- The EML create call of cell 8 for a given title and descriptor pid. -/
def emlCallOf (title orcid eml_pid : String) (now : Nat) : CreateCall :=
  { pid := eml_pid
    payload := utf8Encode (create_minimum_eml title)
    sysmeta := mkSysMeta eml_pid "eml://ecoinformatics.org/eml-2.1.1"
      (utf8Encode (create_minimum_eml title)) orcid none now }

/-- The data create call of cell 14 for one file and its fresh pid. -/
def dataCallOf (orcid : String) (now : Nat) (p : FileEntry × String) : CreateCall :=
  { pid := p.2
    payload := p.1.content
    sysmeta := mkSysMeta p.2 p.1.format p.1.content orcid
      (some (flatten_filepath p.1.path)) now }

/-- The resource-map create call of cell 18. -/
def oreCallOf (orcid ore_pid eml_pid : String) (data_pids : List String)
    (now : Nat) : CreateCall :=
  { pid := ore_pid
    payload := (createSimpleResourceMap ore_pid eml_pid data_pids).serialize
    sysmeta := mkSysMeta ore_pid "http://www.openarchives.org/ore/terms"
      (createSimpleResourceMap ore_pid eml_pid data_pids).serialize orcid none now }

/-- The whole notebook flow (cells 4, 8, 14, 18 in order): sort the local
files, build and upload the EML descriptor, upload each data file with a
fresh identifier from the supply, then build the resource map over the
collected identifiers and upload it.  The first component is the trace of
`client.create` calls issued (also on failure, up to the failing step);
the second is the collected data identifiers and the resource map. -/
def runFlow (title orcid eml_pid ore_pid : String) (supply : List String)
    (rawFiles : List FileEntry) (now : Nat) :
    List CreateCall × Except PyError (List String × ResourceMap) :=
  let eml_bytes := utf8Encode (create_minimum_eml title)
  match generate_system_metadata eml_pid "eml://ecoinformatics.org/eml-2.1.1"
    (.bytes eml_bytes) orcid none now with
  | .error e => ([], .error e)
  | .ok meta_sm =>
    let emlCall : CreateCall := ⟨eml_pid, eml_bytes, meta_sm⟩
    let d := uploadData orcid now ((sortFiles rawFiles).zip supply)
    match d.2 with
    | .error e => (emlCall :: d.1, .error e)
    | .ok data_pids =>
      let ore := createSimpleResourceMap ore_pid eml_pid data_pids
      match generate_system_metadata ore_pid "http://www.openarchives.org/ore/terms"
        (.bytes ore.serialize) orcid none now with
      | .error e => (emlCall :: d.1, .error e)
      | .ok ore_meta =>
        (emlCall :: d.1 ++ [⟨ore_pid, ore.serialize, ore_meta⟩],
         .ok (data_pids, ore))

/-! ## Helper lemmas -/

theorem md5Hex_nil : md5Hex [] = "d41d8cd98f00b204e9800998ecf8427e" := by decide

theorem gsm_bytes_valid (pid fmt : String) (b : List Nat) (orcid : String)
    (fn : Option String) (now : Nat) (hv : identifierValid pid = true) :
    generate_system_metadata pid fmt (.bytes b) orcid fn now =
      .ok (mkSysMeta pid fmt b orcid fn now) := by
  simp [generate_system_metadata, coerceBytes, hv]

theorem gsm_bytes_eq (pid fmt : String) (b : List Nat) (orcid : String)
    (fn : Option String) (now : Nat) :
    generate_system_metadata pid fmt (.bytes b) orcid fn now =
      if identifierValid pid then .ok (mkSysMeta pid fmt b orcid fn now)
      else .error (.simpleFacetValueError "identifier") := rfl

theorem gsm_str_eq (pid fmt : String) (s : String) (orcid : String)
    (fn : Option String) (now : Nat) :
    generate_system_metadata pid fmt (.str s) orcid fn now =
      if identifierValid pid then
        .ok (mkSysMeta pid fmt (utf8Encode s) orcid fn now)
      else .error (.simpleFacetValueError "identifier") := rfl

theorem gsm_other_eq (pid fmt orcid : String) (fn : Option String) (now : Nat) :
    generate_system_metadata pid fmt .other orcid fn now =
      .error (.valueError "Supplied science_object is not unicode") := rfl

theorem gsm_ok_eq {pid fmt : String} {v : PyVal} {orcid : String}
    {fn : Option String} {now : Nat} {r : SystemMetadata}
    (h : generate_system_metadata pid fmt v orcid fn now = .ok r) :
    ∃ b, coerceBytes v = .ok b ∧ identifierValid pid = true ∧
      r = mkSysMeta pid fmt b orcid fn now := by
  cases v with
  | bytes b =>
    rw [gsm_bytes_eq] at h
    by_cases hv : identifierValid pid = true
    · rw [if_pos hv] at h
      exact ⟨b, rfl, hv, (Except.ok.inj h).symm⟩
    · rw [if_neg hv] at h
      exact Except.noConfusion h
  | str s =>
    rw [gsm_str_eq] at h
    by_cases hv : identifierValid pid = true
    · rw [if_pos hv] at h
      exact ⟨utf8Encode s, rfl, hv, (Except.ok.inj h).symm⟩
    · rw [if_neg hv] at h
      exact Except.noConfusion h
  | other =>
    rw [gsm_other_eq] at h
    exact Except.noConfusion h

theorem data_flatten (s : String) :
    (flatten_filepath s).data =
      concatMap (fun c => if c = '/' then ['_', '_'] else [c]) s.data := rfl

theorem concatMap_append (f : α → List β) (l1 l2 : List α) :
    concatMap f (l1 ++ l2) = concatMap f l1 ++ concatMap f l2 := by
  induction l1 with
  | nil => rfl
  | cons x xs ih => simp [concatMap, ih]

theorem concatMap_no_sep (l : List Char) (h : ∀ c ∈ l, c ≠ '/') :
    concatMap (fun c => if c = '/' then ['_', '_'] else [c]) l = l := by
  induction l with
  | nil => rfl
  | cons c cs ih =>
    have hc : c ≠ '/' := h c (List.mem_cons_self c cs)
    simp [concatMap, hc, ih (fun x hx => h x (List.mem_cons_of_mem _ hx))]

theorem length_insertSortedFE (x : FileEntry) (l : List FileEntry) :
    (insertSortedFE x l).length = l.length + 1 := by
  induction l with
  | nil => rfl
  | cons y ys ih =>
    by_cases h : x.path ≤ y.path
    · simp [insertSortedFE, h]
    · simp [insertSortedFE, h, ih]

theorem length_sortFiles (l : List FileEntry) :
    (sortFiles l).length = l.length := by
  induction l with
  | nil => rfl
  | cons x xs ih => simp [sortFiles, length_insertSortedFE, ih]

theorem isSortedByPath_insert (x : FileEntry) (l : List FileEntry)
    (h : isSortedByPath l = true) :
    isSortedByPath (insertSortedFE x l) = true := by
  induction l with
  | nil => rfl
  | cons y ys ih =>
    by_cases hxy : x.path ≤ y.path
    · simp only [insertSortedFE, if_pos hxy, isSortedByPath]
      exact h
    · simp only [insertSortedFE, if_neg hxy]
      have hyx : y.path ≤ x.path := le_of_not_le hxy
      cases ys with
      | nil => simp [insertSortedFE, isSortedByPath, hyx]
      | cons z zs =>
        have hyz : y.path ≤ z.path := by
          by_contra h2
          simp [isSortedByPath, h2] at h
        have htl : isSortedByPath (z :: zs) = true := by
          simpa [isSortedByPath, hyz] using h
        have ihz := ih htl
        by_cases hxz : x.path ≤ z.path
        · simp only [insertSortedFE, if_pos hxz, isSortedByPath]
          rw [if_pos hyx]
          exact htl
        · simp only [insertSortedFE, if_neg hxz] at ihz ⊢
          simp only [isSortedByPath]
          rw [if_pos hyz]
          exact ihz

theorem isSortedByPath_sortFiles (l : List FileEntry) :
    isSortedByPath (sortFiles l) = true := by
  induction l with
  | nil => rfl
  | cons x xs ih => exact isSortedByPath_insert x (sortFiles xs) ih

theorem zip_map_snd (l1 : List α) (l2 : List β) (h : l1.length = l2.length) :
    (l1.zip l2).map Prod.snd = l2 := by
  induction l1 generalizing l2 with
  | nil =>
    cases l2 with
    | nil => rfl
    | cons y ys => simp at h
  | cons x xs ih =>
    cases l2 with
    | nil => simp at h
    | cons y ys =>
      simp only [List.zip_cons_cons, List.map_cons]
      rw [ih ys (by simpa using h)]

theorem uploadData_ok (orcid : String) (now : Nat) (l : List (FileEntry × String))
    (h : ∀ p ∈ l, identifierValid p.2 = true) :
    uploadData orcid now l =
      (l.map (dataCallOf orcid now), .ok (l.map Prod.snd)) := by
  induction l with
  | nil => rfl
  | cons p rest ih =>
    obtain ⟨f, pid⟩ := p
    have hp : identifierValid pid = true := h (f, pid) (List.mem_cons_self _ _)
    have hr := ih (fun q hq => h q (List.mem_cons_of_mem _ hq))
    simp only [uploadData]
    rw [gsm_bytes_valid _ _ _ _ _ _ hp, hr]
    simp [dataCallOf, Except.map]

theorem runFlow_ok (title orcid eml_pid ore_pid : String) (supply : List String)
    (rawFiles : List FileEntry) (now : Nat)
    (hE : identifierValid eml_pid = true) (hO : identifierValid ore_pid = true)
    (hS : ∀ p ∈ supply, identifierValid p = true)
    (hLen : supply.length = rawFiles.length) :
    runFlow title orcid eml_pid ore_pid supply rawFiles now =
      (emlCallOf title orcid eml_pid now ::
        ((sortFiles rawFiles).zip supply).map (dataCallOf orcid now) ++
        [oreCallOf orcid ore_pid eml_pid supply now],
       .ok (supply, createSimpleResourceMap ore_pid eml_pid supply)) := by
  have hzip : ∀ p ∈ (sortFiles rawFiles).zip supply, identifierValid p.2 = true := by
    intro p hp
    obtain ⟨f, q⟩ := p
    exact hS q (List.of_mem_zip hp).2
  have hsnd : ((sortFiles rawFiles).zip supply).map Prod.snd = supply :=
    zip_map_snd _ _ (by rw [length_sortFiles]; omega)
  simp only [runFlow]
  rw [gsm_bytes_valid _ _ _ _ _ _ hE, uploadData_ok _ _ _ hzip]
  dsimp only
  rw [hsnd, gsm_bytes_valid _ _ _ _ _ _ hO]
  dsimp only
  simp [emlCallOf, oreCallOf]

/-! ## Claim theorems -/

/-- C1: for every byte payload `P`, the record returned by
`generate_system_metadata` has size `len(P)` and checksum the MD5 hex
digest of `P`, with checksum algorithm tag "MD5". -/
theorem gsm_size_checksum (pid fmt orcid : String) (fn : Option String)
    (now : Nat) (P : List Nat) (r : SystemMetadata)
    (h : generate_system_metadata pid fmt (.bytes P) orcid fn now = .ok r) :
    r.size = P.length ∧ r.checksum.value = md5Hex P ∧
      r.checksum.algorithm = "MD5" := by
  obtain ⟨b, hb, _, hr⟩ := gsm_ok_eq h
  cases hb
  subst hr
  exact ⟨rfl, rfl, rfl⟩

/-- C1 witness at payload "abc": size 3 and the well-known digest. -/
theorem gsm_size_checksum_witness :
    (mkSysMeta "pid1" "text/plain" [97, 98, 99] "orcid1" none 0).size = 3 ∧
    (mkSysMeta "pid1" "text/plain" [97, 98, 99] "orcid1" none 0).checksum.value =
      "900150983cd24fb0d6963f7d28e17f72" ∧
    (mkSysMeta "pid1" "text/plain" [97, 98, 99] "orcid1" none 0).checksum.algorithm =
      "MD5" := by
  have h := gsm_size_checksum "pid1" "text/plain" "orcid1" none 0 [97, 98, 99]
    (mkSysMeta "pid1" "text/plain" [97, 98, 99] "orcid1" none 0)
    (gsm_bytes_valid _ _ _ _ _ _ (by decide))
  refine ⟨h.1, ?_, h.2.2⟩
  rw [h.2.1]
  decide

/-- C5: `generate_system_metadata` raises `ValueError` exactly when the
payload is neither a byte sequence nor a text string; a text payload is
processed exactly as its UTF-8 byte encoding. -/
theorem gsm_valueError_iff (pid fmt orcid : String) (fn : Option String)
    (now : Nat) (v : PyVal) (s : String) :
    ((generate_system_metadata pid fmt v orcid fn now =
        .error (.valueError "Supplied science_object is not unicode")) ↔
      v = PyVal.other) ∧
    generate_system_metadata pid fmt (.str s) orcid fn now =
      generate_system_metadata pid fmt (.bytes (utf8Encode s)) orcid fn now := by
  refine ⟨⟨?_, ?_⟩, rfl⟩
  · intro h
    cases v with
    | other => rfl
    | bytes b =>
      exfalso
      rw [gsm_bytes_eq] at h
      by_cases hv : identifierValid pid = true
      · rw [if_pos hv] at h
        exact Except.noConfusion h
      · rw [if_neg hv] at h
        exact PyError.noConfusion (Except.error.inj h)
    | str s' =>
      exfalso
      rw [gsm_str_eq] at h
      by_cases hv : identifierValid pid = true
      · rw [if_pos hv] at h
        exact Except.noConfusion h
      · rw [if_neg hv] at h
        exact PyError.noConfusion (Except.error.inj h)
  · intro h; subst h; rfl

/-- C5 witness at a concrete non-byte, non-string payload and a concrete
text payload. -/
theorem gsm_valueError_iff_witness :
    ((generate_system_metadata "p" "f" PyVal.other "o" none 0 =
        .error (.valueError "Supplied science_object is not unicode")) ↔
      PyVal.other = PyVal.other) ∧
    generate_system_metadata "p" "f" (.str "ab") "o" none 0 =
      generate_system_metadata "p" "f" (.bytes (utf8Encode "ab")) "o" none 0 :=
  gsm_valueError_iff "p" "f" "o" none 0 PyVal.other "ab"

/-- C7: every record returned by `generate_system_metadata` carries an
access policy with exactly one rule, subject the public subject,
permission read. -/
theorem gsm_access_policy (pid fmt orcid : String) (v : PyVal)
    (fn : Option String) (now : Nat) (r : SystemMetadata)
    (h : generate_system_metadata pid fmt v orcid fn now = .ok r) :
    r.accessPolicy = [{ subject := [SUBJECT_PUBLIC], permission := ["read"] }] := by
  obtain ⟨b, _, _, hr⟩ := gsm_ok_eq h
  subst hr
  rfl

/-- C7 witness at a concrete call. -/
theorem gsm_access_policy_witness :
    (mkSysMeta "p" "f" [1, 2] "o" none 0).accessPolicy =
      [{ subject := [SUBJECT_PUBLIC], permission := ["read"] }] :=
  gsm_access_policy "p" "f" "o" (.bytes [1, 2]) none 0 (mkSysMeta "p" "f" [1, 2] "o" none 0)
    (gsm_bytes_valid _ _ _ _ _ _ (by decide))

/-- C8: two calls with the same identifier, format, payload, rights
holder and filename yield records equal in every field except the two
timestamp fields, and within each record the two timestamps coincide. -/
theorem gsm_idempotent_mod_time (pid fmt orcid : String) (v : PyVal)
    (fn : Option String) (t1 t2 : Nat) (r1 r2 : SystemMetadata)
    (h1 : generate_system_metadata pid fmt v orcid fn t1 = .ok r1)
    (h2 : generate_system_metadata pid fmt v orcid fn t2 = .ok r2) :
    { r1 with dateUploaded := r2.dateUploaded,
              dateSysMetadataModified := r2.dateSysMetadataModified } = r2 ∧
    r1.dateUploaded = r1.dateSysMetadataModified ∧
    r2.dateUploaded = r2.dateSysMetadataModified := by
  obtain ⟨b1, hb1, _, hr1⟩ := gsm_ok_eq h1
  obtain ⟨b2, hb2, _, hr2⟩ := gsm_ok_eq h2
  rw [hb1] at hb2
  cases hb2
  subst hr1
  subst hr2
  exact ⟨rfl, rfl, rfl⟩

/-- C8 witness at two distinct instants. -/
theorem gsm_idempotent_mod_time_witness :
    { mkSysMeta "p" "f" [7] "o" (some "n") 0 with
        dateUploaded := (mkSysMeta "p" "f" [7] "o" (some "n") 5).dateUploaded,
        dateSysMetadataModified :=
          (mkSysMeta "p" "f" [7] "o" (some "n") 5).dateSysMetadataModified } =
      mkSysMeta "p" "f" [7] "o" (some "n") 5 ∧
    (mkSysMeta "p" "f" [7] "o" (some "n") 0).dateUploaded =
      (mkSysMeta "p" "f" [7] "o" (some "n") 0).dateSysMetadataModified ∧
    (mkSysMeta "p" "f" [7] "o" (some "n") 5).dateUploaded =
      (mkSysMeta "p" "f" [7] "o" (some "n") 5).dateSysMetadataModified :=
  gsm_idempotent_mod_time "p" "f" "o" (.bytes [7]) (some "n") 0 5
    (mkSysMeta "p" "f" [7] "o" (some "n") 0) (mkSysMeta "p" "f" [7] "o" (some "n") 5)
    (gsm_bytes_valid _ _ _ _ _ _ (by decide))
    (gsm_bytes_valid _ _ _ _ _ _ (by decide))

/-- C10: a text-string payload yields a record equal (up to the two
timestamp fields) to the record for its UTF-8 byte encoding, and the
file name field is present exactly when the filename argument is a
non-empty, non-None value. -/
theorem gsm_str_utf8_and_filename (pid fmt orcid : String) (fn : Option String)
    (t1 t2 : Nat) (s : String) (r1 r2 : SystemMetadata)
    (h1 : generate_system_metadata pid fmt (.str s) orcid fn t1 = .ok r1)
    (h2 : generate_system_metadata pid fmt (.bytes (utf8Encode s)) orcid fn t2 = .ok r2) :
    { r1 with dateUploaded := r2.dateUploaded,
              dateSysMetadataModified := r2.dateSysMetadataModified } = r2 ∧
    (r1.fileName.isSome ↔ ∃ f, fn = some f ∧ f ≠ "") := by
  obtain ⟨b1, hb1, _, hr1⟩ := gsm_ok_eq h1
  obtain ⟨b2, hb2, _, hr2⟩ := gsm_ok_eq h2
  cases hb1
  cases hb2
  subst hr1
  subst hr2
  refine ⟨rfl, ?_⟩
  cases fn with
  | none => simp [mkSysMeta]
  | some f =>
    by_cases hf : f = ""
    · subst hf; simp [mkSysMeta]
    · simp [mkSysMeta, hf]

/-- C10 witness at a concrete text payload and filename. -/
theorem gsm_str_utf8_and_filename_witness :
    { mkSysMeta "p" "f" (utf8Encode "ab") "o" (some "n") 0 with
        dateUploaded := (mkSysMeta "p" "f" (utf8Encode "ab") "o" (some "n") 5).dateUploaded,
        dateSysMetadataModified :=
          (mkSysMeta "p" "f" (utf8Encode "ab") "o" (some "n") 5).dateSysMetadataModified } =
      mkSysMeta "p" "f" (utf8Encode "ab") "o" (some "n") 5 ∧
    ((mkSysMeta "p" "f" (utf8Encode "ab") "o" (some "n") 0).fileName.isSome ↔
      ∃ f, (some "n" : Option String) = some f ∧ f ≠ "") :=
  gsm_str_utf8_and_filename "p" "f" "o" (some "n") 0 5 "ab"
    (mkSysMeta "p" "f" (utf8Encode "ab") "o" (some "n") 0)
    (mkSysMeta "p" "f" (utf8Encode "ab") "o" (some "n") 5)
    (gsm_bytes_valid _ _ _ _ _ _ (by decide))
    (gsm_bytes_valid _ _ _ _ _ _ (by decide))

/-- C4: `flatten_filepath` replaces every path separator with the token
"__" (it is a homomorphism sending each separator to "__" and leaving
separator-free segments unchanged), and it is not injective: the distinct
paths "a/b" and "a__b" flatten to the same string. -/
theorem flatten_filepath_spec (a b s : String) (hs : ∀ c ∈ s.data, c ≠ '/') :
    flatten_filepath (a ++ "/" ++ b) =
      flatten_filepath a ++ "__" ++ flatten_filepath b ∧
    flatten_filepath s = s ∧
    flatten_filepath "a/b" = flatten_filepath "a__b" ∧
    ("a/b" : String) ≠ "a__b" := by
  refine ⟨?_, ?_, by decide, by decide⟩
  · apply String.ext
    rw [data_flatten, String.data_append, String.data_append,
      String.data_append, String.data_append, data_flatten, data_flatten,
      concatMap_append, concatMap_append]
    rfl
  · apply String.ext
    rw [data_flatten]
    exact concatMap_no_sep s.data hs

/-- C4 witness at the segments "x", "y" and the separator-free path
"ab". -/
theorem flatten_filepath_spec_witness :
    flatten_filepath ("x" ++ "/" ++ "y") =
      flatten_filepath "x" ++ "__" ++ flatten_filepath "y" ∧
    flatten_filepath "ab" = "ab" ∧
    flatten_filepath "a/b" = flatten_filepath "a__b" ∧
    ("a/b" : String) ≠ "a__b" :=
  flatten_filepath_spec "x" "y" "ab" (by decide)

/-- C3: the title is spliced into the document unescaped, so a title
containing markup is not recovered by a parse: for the title
"a</title>b" the produced document's title element reads back "a", while
a markup-free title is recovered verbatim. -/
theorem create_minimum_eml_title_defect :
    extractTitle (create_minimum_eml "a</title>b") = some "a" ∧
    extractTitle (create_minimum_eml "a</title>b") ≠ some "a</title>b" ∧
    extractTitle (create_minimum_eml "Test data package") =
      some "Test data package" :=
  ⟨by decide, by decide, by decide⟩

/-- C6: with an empty identifier, `generate_system_metadata` fails for
every payload, and the notebook flow run with an empty descriptor
identifier fails with an empty create-call trace: no network call is
made. -/
theorem gsm_empty_pid_fails (fmt orcid title ore_pid : String) (v : PyVal)
    (fn : Option String) (now : Nat) (supply : List String)
    (rawFiles : List FileEntry) :
    (∃ e, generate_system_metadata "" fmt v orcid fn now = .error e) ∧
    runFlow title orcid "" ore_pid supply rawFiles now =
      ([], .error (.simpleFacetValueError "identifier")) := by
  constructor
  · cases v with
    | bytes b => exact ⟨.simpleFacetValueError "identifier", rfl⟩
    | str s => exact ⟨.simpleFacetValueError "identifier", rfl⟩
    | other => exact ⟨.valueError "Supplied science_object is not unicode", rfl⟩
  · rfl

/-- C9: under valid identifiers the flow issues the descriptor create
first, then one create per data file following the lexicographically
sorted file order with identifiers collected in upload order, and the
aggregation create strictly last, built over exactly those collected
identifiers. -/
theorem runFlow_order (title orcid eml_pid ore_pid : String)
    (supply : List String) (rawFiles : List FileEntry) (now : Nat)
    (hE : identifierValid eml_pid = true) (hO : identifierValid ore_pid = true)
    (hS : ∀ p ∈ supply, identifierValid p = true)
    (hLen : supply.length = rawFiles.length) :
    runFlow title orcid eml_pid ore_pid supply rawFiles now =
      (emlCallOf title orcid eml_pid now ::
        ((sortFiles rawFiles).zip supply).map (dataCallOf orcid now) ++
        [oreCallOf orcid ore_pid eml_pid supply now],
       .ok (supply, createSimpleResourceMap ore_pid eml_pid supply)) ∧
    isSortedByPath (sortFiles rawFiles) = true ∧
    ((sortFiles rawFiles).zip supply).map Prod.snd = supply :=
  ⟨runFlow_ok title orcid eml_pid ore_pid supply rawFiles now hE hO hS hLen,
   isSortedByPath_sortFiles rawFiles,
   zip_map_snd _ _ (by rw [length_sortFiles]; omega)⟩

/-- C9 witness: a concrete two-file run (files given out of order). -/
theorem runFlow_order_witness :
    runFlow "t" "o" "e" "r" ["p1", "p2"]
        [⟨"tmp2/f.txt", "text/plain", [49]⟩, ⟨"tmp1/f.txt", "text/plain", [50]⟩] 0 =
      (emlCallOf "t" "o" "e" 0 ::
        ((sortFiles [⟨"tmp2/f.txt", "text/plain", [49]⟩,
            ⟨"tmp1/f.txt", "text/plain", [50]⟩]).zip ["p1", "p2"]).map
          (dataCallOf "o" 0) ++
        [oreCallOf "o" "r" "e" ["p1", "p2"] 0],
       .ok (["p1", "p2"], createSimpleResourceMap "r" "e" ["p1", "p2"])) ∧
    isSortedByPath (sortFiles [⟨"tmp2/f.txt", "text/plain", [49]⟩,
        ⟨"tmp1/f.txt", "text/plain", [50]⟩]) = true ∧
    ((sortFiles [⟨"tmp2/f.txt", "text/plain", [49]⟩,
        ⟨"tmp1/f.txt", "text/plain", [50]⟩]).zip ["p1", "p2"]).map Prod.snd =
      ["p1", "p2"] :=
  runFlow_order "t" "o" "e" "r" ["p1", "p2"]
    [⟨"tmp2/f.txt", "text/plain", [49]⟩, ⟨"tmp1/f.txt", "text/plain", [50]⟩] 0
    (by decide) (by decide) (by decide) rfl

/-- C2: over four data files with distinct fresh identifiers (two
directories of two files each), the flow issues exactly 6 create calls
(1 descriptor, 4 data objects, 1 aggregation), and the resource map of
the final create references the descriptor identifier and each data
identifier exactly once. -/
theorem runFlow_six_creates (title orcid eml_pid ore_pid : String)
    (supply : List String) (rawFiles : List FileEntry) (now : Nat)
    (hE : identifierValid eml_pid = true) (hO : identifierValid ore_pid = true)
    (hS : ∀ p ∈ supply, identifierValid p = true)
    (hF : rawFiles.length = 4) (hLen : supply.length = 4)
    (hNd : supply.Nodup) (hMem : eml_pid ∉ supply) :
    (runFlow title orcid eml_pid ore_pid supply rawFiles now).1.length = 6 ∧
    (runFlow title orcid eml_pid ore_pid supply rawFiles now).2 =
      .ok (supply, createSimpleResourceMap ore_pid eml_pid supply) ∧
    (createSimpleResourceMap ore_pid eml_pid supply).references.count eml_pid = 1 ∧
    (∀ p ∈ supply,
      (createSimpleResourceMap ore_pid eml_pid supply).references.count p = 1) := by
  have hrun := runFlow_ok title orcid eml_pid ore_pid supply rawFiles now
    hE hO hS (by omega)
  refine ⟨?_, ?_, ?_, ?_⟩
  · rw [hrun]
    simp [List.length_zip, length_sortFiles, hF, hLen]
  · rw [hrun]
  · simp only [ResourceMap.references, createSimpleResourceMap]
    rw [List.count_cons_self, List.count_eq_zero_of_not_mem hMem]
  · intro p hp
    have hne : p ≠ eml_pid := fun hpe => hMem (hpe ▸ hp)
    simp only [ResourceMap.references, createSimpleResourceMap]
    rw [List.count_cons_of_ne hne]
    exact List.count_eq_one_of_mem hNd hp

/-- C2 witness: a concrete four-file run with distinct identifiers. -/
theorem runFlow_six_creates_witness :
    (runFlow "t" "o" "e" "r" ["d1", "d2", "d3", "d4"]
        [⟨"tmp1/file1.txt", "text/plain", [49]⟩,
         ⟨"tmp1/file2.txt", "text/plain", [50]⟩,
         ⟨"tmp2/file1.txt", "text/plain", [51]⟩,
         ⟨"tmp2/file2.txt", "text/plain", [52]⟩] 0).1.length = 6 ∧
    (runFlow "t" "o" "e" "r" ["d1", "d2", "d3", "d4"]
        [⟨"tmp1/file1.txt", "text/plain", [49]⟩,
         ⟨"tmp1/file2.txt", "text/plain", [50]⟩,
         ⟨"tmp2/file1.txt", "text/plain", [51]⟩,
         ⟨"tmp2/file2.txt", "text/plain", [52]⟩] 0).2 =
      .ok (["d1", "d2", "d3", "d4"],
        createSimpleResourceMap "r" "e" ["d1", "d2", "d3", "d4"]) ∧
    (createSimpleResourceMap "r" "e" ["d1", "d2", "d3", "d4"]).references.count "e" = 1 ∧
    (∀ p ∈ ["d1", "d2", "d3", "d4"],
      (createSimpleResourceMap "r" "e" ["d1", "d2", "d3", "d4"]).references.count p = 1) :=
  runFlow_six_creates "t" "o" "e" "r" ["d1", "d2", "d3", "d4"]
    [⟨"tmp1/file1.txt", "text/plain", [49]⟩,
     ⟨"tmp1/file2.txt", "text/plain", [50]⟩,
     ⟨"tmp2/file1.txt", "text/plain", [51]⟩,
     ⟨"tmp2/file2.txt", "text/plain", [52]⟩] 0
    (by decide) (by decide) (by decide) rfl rfl (by decide) (by decide)

end D1
